import Mathlib

/-!
Shallow embedding of the hydraulic simulation core of the `water`
repository (`physics_sim.py` together with the constants of `config.py`),
and proofs of the specification's claims about it.

Floating-point values of the Python code are embedded as rationals
(every float literal of the configuration is a rational number); the
square root of the demand curve lives in `ℝ`.  The external root finder
`fsolve` is a black-box numerical primitive: it is modelled by an explicit
parameter `solverOut : Option ℚ` giving the head it returns, `none`
standing for a failure (an exception raised by the solver call).  An
exception raised by the Python code itself is modelled by the `Except`
monad, with the exception's class name as the error string.
-/

namespace Water

/-- Equality of `Except` values is decidable when it is on both sides;
used to evaluate the embedded functions on concrete inputs. -/
instance {ε α : Type} [DecidableEq ε] [DecidableEq α] : DecidableEq (Except ε α) :=
  fun x y =>
    match x, y with
    | .ok a, .ok b =>
      if h : a = b then isTrue (by rw [h]) else isFalse (by simp [h])
    | .error a, .error b =>
      if h : a = b then isTrue (by rw [h]) else isFalse (by simp [h])
    | .ok _, .error _ => isFalse (by simp)
    | .error _, .ok _ => isFalse (by simp)

/-- A pump base curve: rated frequency and the sampled flow/head arrays
(`PUMP_BASE_CURVES` entries of `config.py`). -/
structure PumpCurve where
  freq : ℚ
  flow : List ℚ
  head : List ℚ
  deriving Repr, DecidableEq

/-- Raw table entry for pump 1 of `config.py`, flows in m³/hr. -/
def pump1_raw : PumpCurve :=
  { freq := 60
    flow := [0, 35775/24, 70590/24, 84360/24, 100433/24, 114599/24, 125432/24, 126821/24]
    head := [1996/100, 1727/100, 1506/100, 1309/100, 1106/100, 917/100, 72/10, 482/100] }

/-- Raw table entry for pump 2 of `config.py`, flows in m³/hr. -/
def pump2_raw : PumpCurve :=
  { freq := 60
    flow := [0, 50, 100, 150, 200, 250, 300, 350]
    head := [71, 69, 66, 61, 53, 41, 26, 11] }

/-- Raw table entry for pump 3 of `config.py`, flows in m³/hr. -/
def pump3_raw : PumpCurve :=
  { freq := 60
    flow := [0, 25, 50, 75, 100, 125]
    head := [50, 48, 42, 35, 25, 15] }

/-- Raw table entry for pump 4 of `config.py`, flows in m³/hr. -/
def pump4_raw : PumpCurve :=
  { freq := 60
    flow := [0, 25, 50, 75, 100, 125]
    head := [50, 48, 42, 35, 25, 15] }

/-- The in-place unit conversion loop of `config.py`: every flow sample is
divided by 3600 (m³/hr to m³/s). -/
def to_si (c : PumpCurve) : PumpCurve :=
  { c with flow := c.flow.map (· / 3600) }

/-- `PUMP_BASE_CURVES` of `config.py` after the unit-conversion loop,
as an association list keyed by the pump name strings. -/
def PUMP_BASE_CURVES : List (String × PumpCurve) :=
  [("pump1", to_si pump1_raw), ("pump2", to_si pump2_raw),
   ("pump3", to_si pump3_raw), ("pump4", to_si pump4_raw)]

/-- `SYSTEM_K_VALUE` of `config.py`. -/
def SYSTEM_K_VALUE : ℚ := 287/10

/-- Python dictionary read `d[key]` over an association list: the value at
the first matching key, `none` when the key is absent (a `KeyError` at the
call sites). -/
def dictGet {α : Type} (d : List (String × α)) (key : String) : Option α :=
  match d with
  | [] => none
  | (k, v) :: rest => if key = k then some v else dictGet rest key

/-- Segment walk of `np.interp`: `xs` is increasing and `x` is known to be
larger than the first sample; on the segment `[x0, x1]` containing `x`
the value is the linear interpolation of `y0, y1`.  Past the last sample
the last `y` is returned (the right clamp of `np.interp`). -/
def interpSeg (x : ℚ) : List ℚ → List ℚ → ℚ
  | x0 :: x1 :: xs, y0 :: y1 :: ys =>
      if x ≤ x1 then y0 + (y1 - y0) * (x - x0) / (x1 - x0)
      else interpSeg x (x1 :: xs) (y1 :: ys)
  | _ :: [], y0 :: _ => y0
  | _, _ => 0

/-- `np.interp(x, xs, ys)` for increasing sample positions `xs`:
clamp to `ys[0]` on the left, to `ys[-1]` on the right, linear
interpolation in between.  (Empty input returns 0; never reached by
`get_pump_flow`, whose curves are nonempty.) -/
def np_interp (x : ℚ) (xs ys : List ℚ) : ℚ :=
  match xs, ys with
  | x0 :: _, y0 :: _ => if x ≤ x0 then y0 else interpSeg x xs ys
  | _, _ => 0

/-- Lines 24–25 and 31 of `physics_sim.py`: the degraded flow samples
(`curve['flow'] * d_Q`) rescaled by the affinity ratio
`frequency / base_f`. -/
def scaled_flows (c : PumpCurve) (d_Q frequency : ℚ) : List ℚ :=
  (c.flow.map (· * d_Q)).map (· * (frequency / c.freq))

/-- Lines 24 and 32 of `physics_sim.py`: the degraded head samples
(`curve['head'] * d_H`) rescaled by the squared affinity ratio
`(frequency / base_f) ** 2`. -/
def scaled_heads (c : PumpCurve) (d_H frequency : ℚ) : List ℚ :=
  (c.head.map (· * d_H)).map (· * (frequency / c.freq) ^ 2)

/-- `get_pump_flow` of `physics_sim.py`.  A `KeyError` (missing
degradation entry or unknown pump identifier) or `IndexError` (empty
curve) is an `.error`. -/
def get_pump_flow (pump_id : ℕ) (frequency head : ℚ)
    (degradation_factors : List (String × ℚ)) : Except String ℚ :=
  if frequency ≤ 0 then .ok 0
  else
    match dictGet degradation_factors ("pump" ++ toString pump_id ++ "_dH") with
    | none => .error "KeyError"
    | some d_H =>
      match dictGet degradation_factors ("pump" ++ toString pump_id ++ "_dQ") with
      | none => .error "KeyError"
      | some d_Q =>
        match dictGet PUMP_BASE_CURVES ("pump" ++ toString pump_id) with
        | none => .error "KeyError"
        | some curve =>
          let new_Q_curve := scaled_flows curve d_Q frequency
          let new_H_curve := scaled_heads curve d_H frequency
          match new_H_curve.head?, new_H_curve.getLast? with
          | some max_head, some min_head =>
            if max_head ≤ head then .ok 0
            else if head ≤ min_head then
              match new_Q_curve.getLast? with
              | some q_last => .ok q_last
              | none => .error "IndexError"
            else .ok (np_interp head new_H_curve.reverse new_Q_curve.reverse)
          | _, _ => .error "IndexError"

/-- `get_pump_power` of `physics_sim.py`: zero for a pump that is off,
otherwise the hydraulic power estimate
`(flow * head * 9.81 * 1000) / (0.75 * 1000)`. -/
def get_pump_power (pump_id : ℕ) (frequency flow head : ℚ) : ℚ :=
  if flow ≤ 0 ∨ frequency ≤ 0 then 0
  else if 0 < flow then (flow * head * (981/100) * 1000) / ((3/4) * 1000)
  else 0

/-- `get_system_head` of `physics_sim.py`:
`static_head + SYSTEM_K_VALUE * total_flow ** 2`. -/
noncomputable def get_system_head (total_flow_m3s static_head : ℝ) : ℝ :=
  static_head + (SYSTEM_K_VALUE : ℝ) * total_flow_m3s ^ 2

/-- The demand side of `equations_to_solve` (lines 90–93 of
`physics_sim.py`): zero below the static head, otherwise
`sqrt((H - static_head) / SYSTEM_K_VALUE)`. -/
noncomputable def system_flow (H static_head : ℝ) : ℝ :=
  if H < static_head then 0
  else Real.sqrt ((H - static_head) / (SYSTEM_K_VALUE : ℝ))

/-- Evaluation helper: the pump-1 key string. -/
theorem pumpKey1 : "pump" ++ toString (1 : ℕ) = "pump1" := rfl

/-- Evaluation helper: the pump-2 key string. -/
theorem pumpKey2 : "pump" ++ toString (2 : ℕ) = "pump2" := rfl

/-- Evaluation helper: the pump-3 key string. -/
theorem pumpKey3 : "pump" ++ toString (3 : ℕ) = "pump3" := rfl

/-- Evaluation helper: the pump-4 key string. -/
theorem pumpKey4 : "pump" ++ toString (4 : ℕ) = "pump4" := rfl

/-- Evaluation helper: the pump-1 `dH` key string. -/
theorem pumpKey1dH : ("pump1" ++ "_dH" : String) = "pump1_dH" := rfl

/-- Evaluation helper: the pump-2 `dH` key string. -/
theorem pumpKey2dH : ("pump2" ++ "_dH" : String) = "pump2_dH" := rfl

/-- Evaluation helper: the pump-3 `dH` key string. -/
theorem pumpKey3dH : ("pump3" ++ "_dH" : String) = "pump3_dH" := rfl

/-- Evaluation helper: the pump-4 `dH` key string. -/
theorem pumpKey4dH : ("pump4" ++ "_dH" : String) = "pump4_dH" := rfl

/-- Evaluation helper: the pump-1 `dQ` key string. -/
theorem pumpKey1dQ : ("pump1" ++ "_dQ" : String) = "pump1_dQ" := rfl

/-- Evaluation helper: the pump-2 `dQ` key string. -/
theorem pumpKey2dQ : ("pump2" ++ "_dQ" : String) = "pump2_dQ" := rfl

/-- Evaluation helper: the pump-3 `dQ` key string. -/
theorem pumpKey3dQ : ("pump3" ++ "_dQ" : String) = "pump3_dQ" := rfl

/-- Evaluation helper: the pump-4 `dQ` key string. -/
theorem pumpKey4dQ : ("pump4" ++ "_dQ" : String) = "pump4_dQ" := rfl

/-- The supply loop of `equations_to_solve` (lines 96–100 of
`physics_sim.py`) over an explicit list of loop indices: reading
`frequencies[i]` out of range is an `IndexError`, and each pump's flow is
obtained from `get_pump_flow`. -/
def sum_pump_flows (idxs : List ℕ) (frequencies : List ℚ) (H : ℚ)
    (degradation_factors : List (String × ℚ)) (pump_flow : ℚ) :
    Except String ℚ :=
  match idxs with
  | [] => .ok pump_flow
  | i :: rest => do
    let f ← match frequencies[i]? with
            | none => Except.error "IndexError"
            | some f => Except.ok f
    let q ← get_pump_flow (i + 1) f H degradation_factors
    sum_pump_flows rest frequencies H degradation_factors (pump_flow + q)

/-- Total pump supply at head `H`: the loop `for i in range(4)` of
`equations_to_solve`, accumulator started at `pump_flow = 0.0`. -/
def total_pump_flow (frequencies : List ℚ) (H : ℚ)
    (degradation_factors : List (String × ℚ)) : Except String ℚ :=
  sum_pump_flows [0, 1, 2, 3] frequencies H degradation_factors 0

/-- `equations_to_solve` of `physics_sim.py` at a head `H` (the solver's
current guess, a float, hence a rational): the residual
`pump_flow - system_flow`. -/
noncomputable def equations_to_solve (frequencies : List ℚ) (static_head : ℚ)
    (degradation_factors : List (String × ℚ)) (H : ℚ) : Except String ℝ := do
  let sf : ℝ := system_flow (H : ℝ) (static_head : ℝ)
  let pump_flow ← total_pump_flow frequencies H degradation_factors
  Except.ok ((pump_flow : ℝ) - sf)

/-- The post-solve loop of `simulate_hour` (lines 114–126 of
`physics_sim.py`): per pump, the flow at the operating head and the power
at that flow, summed into `(total_power_op, total_flow_op)`. -/
def post_totals_aux (idxs : List ℕ) (frequencies : List ℚ) (H_op : ℚ)
    (degradation_factors : List (String × ℚ))
    (total_power_op total_flow_op : ℚ) : Except String (ℚ × ℚ) :=
  match idxs with
  | [] => .ok (total_power_op, total_flow_op)
  | i :: rest => do
    let f ← match frequencies[i]? with
            | none => Except.error "IndexError"
            | some f => Except.ok f
    let q_op ← get_pump_flow (i + 1) f H_op degradation_factors
    let p_op := get_pump_power (i + 1) f q_op H_op
    post_totals_aux rest frequencies H_op degradation_factors
      (total_power_op + p_op) (total_flow_op + q_op)

/-- The post-solve totals over the four pumps, accumulators started at
`total_flow_op = 0.0`, `total_power_op = 0.0`. -/
def post_totals (frequencies : List ℚ) (H_op : ℚ)
    (degradation_factors : List (String × ℚ)) : Except String (ℚ × ℚ) :=
  post_totals_aux [0, 1, 2, 3] frequencies H_op degradation_factors 0 0

/-- `simulate_hour` of `physics_sim.py`.  `solverOut` is the outcome of
the external `fsolve` primitive: `some H_op` when it returns (its first
component), `none` when the solver call itself fails.  `fsolve` evaluates
`equations_to_solve` starting at the seed `static_head + 5.0`; whether
that evaluation raises does not depend on the head (no lookup of
`equations_to_solve` depends on `H`), so an exception escaping the
`fsolve` call is modelled by the seed evaluation raising.  Both failure
modes are caught by the `try/except` and turned into the return
`(0.0, 0.0)`.  An exception of the post-solve loop (unreachable when the
seed evaluation succeeded) is not caught and escapes as `.error`. -/
noncomputable def simulate_hour (solverOut : Option ℚ) (frequencies : List ℚ)
    (static_head : ℚ) (degradation_factors : List (String × ℚ)) :
    Except String (ℚ × ℚ) :=
  match equations_to_solve frequencies static_head degradation_factors
      (static_head + 5) with
  | .error _ => .ok (0, 0)
  | .ok _ =>
    match solverOut with
    | none => .ok (0, 0)
    | some H_op => post_totals frequencies H_op degradation_factors

/-- Whether the `try/except` branch of `simulate_hour` was taken: the
specification's `success=false` marker (the Python return value itself
carries no flag, the failure return being the same pair `(0.0, 0.0)`). -/
noncomputable def simulate_failed (solverOut : Option ℚ) (frequencies : List ℚ)
    (static_head : ℚ) (degradation_factors : List (String × ℚ)) : Bool :=
  match equations_to_solve frequencies static_head degradation_factors
      (static_head + 5) with
  | .error _ => true
  | .ok _ => solverOut.isNone

/-! Evaluation lemmas for the embedded functions. -/

/-- A pump at zero or negative frequency delivers no flow (line 11 of
`physics_sim.py`), whatever the head and the degradation dictionary. -/
theorem get_pump_flow_off (pump_id : ℕ) (frequency head : ℚ)
    (deg : List (String × ℚ)) (hf : frequency ≤ 0) :
    get_pump_flow pump_id frequency head deg = .ok 0 := by
  simp [get_pump_flow, hf]

/-- Evaluation of `get_pump_flow` when the pump is on and every dictionary
lookup succeeds: the result is the clamped/interpolated flow on the
degraded, affinity-rescaled curve. -/
theorem get_pump_flow_eval (pump_id : ℕ) (frequency head d_H d_Q : ℚ)
    (deg : List (String × ℚ)) (curve : PumpCurve) (maxh minh qlast : ℚ)
    (hf : 0 < frequency)
    (hH : dictGet deg ("pump" ++ toString pump_id ++ "_dH") = some d_H)
    (hQ : dictGet deg ("pump" ++ toString pump_id ++ "_dQ") = some d_Q)
    (hc : dictGet PUMP_BASE_CURVES ("pump" ++ toString pump_id) = some curve)
    (hmax : (scaled_heads curve d_H frequency).head? = some maxh)
    (hmin : (scaled_heads curve d_H frequency).getLast? = some minh)
    (hql : (scaled_flows curve d_Q frequency).getLast? = some qlast) :
    get_pump_flow pump_id frequency head deg =
      if maxh ≤ head then .ok 0
      else if head ≤ minh then .ok qlast
      else .ok (np_interp head (scaled_heads curve d_H frequency).reverse
        (scaled_flows curve d_Q frequency).reverse) := by
  simp only [get_pump_flow, hH, hQ, hc, hmax, hmin, hql,
    if_neg (not_le.mpr hf)]

/-- With the pump on and all lookups succeeding on a curve with nonempty
sample lists, `get_pump_flow` returns normally (no exception). -/
theorem get_pump_flow_ok (pump_id : ℕ) (frequency head d_H d_Q : ℚ)
    (deg : List (String × ℚ)) (curve : PumpCurve)
    (hf : 0 < frequency)
    (hH : dictGet deg ("pump" ++ toString pump_id ++ "_dH") = some d_H)
    (hQ : dictGet deg ("pump" ++ toString pump_id ++ "_dQ") = some d_Q)
    (hc : dictGet PUMP_BASE_CURVES ("pump" ++ toString pump_id) = some curve)
    (hhead : curve.head ≠ []) (hflow : curve.flow ≠ []) :
    ∃ v, get_pump_flow pump_id frequency head deg = .ok v := by
  have hH' : scaled_heads curve d_H frequency ≠ [] := by
    simp [scaled_heads, hhead]
  have hQ' : scaled_flows curve d_Q frequency ≠ [] := by
    simp [scaled_flows, hflow]
  obtain ⟨maxh, hmax⟩ : ∃ a, (scaled_heads curve d_H frequency).head? = some a := by
    cases h : (scaled_heads curve d_H frequency).head? with
    | none => exact absurd (List.head?_eq_none_iff.mp h) hH'
    | some a => exact ⟨a, rfl⟩
  obtain ⟨minh, hmin⟩ : ∃ a, (scaled_heads curve d_H frequency).getLast? = some a := by
    cases h : (scaled_heads curve d_H frequency).getLast? with
    | none => exact absurd (List.getLast?_eq_none_iff.mp h) hH'
    | some a => exact ⟨a, rfl⟩
  obtain ⟨qlast, hql⟩ : ∃ a, (scaled_flows curve d_Q frequency).getLast? = some a := by
    cases h : (scaled_flows curve d_Q frequency).getLast? with
    | none => exact absurd (List.getLast?_eq_none_iff.mp h) hQ'
    | some a => exact ⟨a, rfl⟩
  rw [get_pump_flow_eval pump_id frequency head d_H d_Q deg curve maxh minh qlast
    hf hH hQ hc hmax hmin hql]
  by_cases h1 : maxh ≤ head
  · exact ⟨0, by rw [if_pos h1]⟩
  · by_cases h2 : head ≤ minh
    · exact ⟨qlast, by rw [if_neg h1, if_pos h2]⟩
    · exact ⟨_, by rw [if_neg h1, if_neg h2]⟩

/-- Reduction of a bind on a normal result. -/
theorem ok_bind {α β : Type} (a : α) (f : α → Except String β) :
    (Except.ok a >>= f) = f a := rfl

/-- Reduction of a bind on an exception. -/
theorem error_bind {α β : Type} (e : String) (f : α → Except String β) :
    ((Except.error e : Except String α) >>= f) = Except.error e := rfl

/-- The curve table holds every one of the four configured pumps, and each
stored curve has nonempty sample lists. -/
theorem curve_lookup (pid : ℕ) (hpid : pid = 1 ∨ pid = 2 ∨ pid = 3 ∨ pid = 4) :
    ∃ curve, dictGet PUMP_BASE_CURVES ("pump" ++ toString pid) = some curve ∧
      curve.head ≠ [] ∧ curve.flow ≠ [] := by
  rcases hpid with rfl | rfl | rfl | rfl
  · exact ⟨to_si pump1_raw, by simp [dictGet, PUMP_BASE_CURVES, pumpKey1],
      by simp [to_si, pump1_raw], by simp [to_si, pump1_raw]⟩
  · exact ⟨to_si pump2_raw, by simp [dictGet, PUMP_BASE_CURVES, pumpKey2],
      by simp [to_si, pump2_raw], by simp [to_si, pump2_raw]⟩
  · exact ⟨to_si pump3_raw, by simp [dictGet, PUMP_BASE_CURVES, pumpKey3],
      by simp [to_si, pump3_raw], by simp [to_si, pump3_raw]⟩
  · exact ⟨to_si pump4_raw, by simp [dictGet, PUMP_BASE_CURVES, pumpKey4],
      by simp [to_si, pump4_raw], by simp [to_si, pump4_raw]⟩

/-- The supply loop returns normally as soon as every visited index has a
frequency entry whose pump-flow evaluation returns normally. -/
theorem sum_pump_flows_ok (idxs : List ℕ) (frequencies : List ℚ) (H : ℚ)
    (deg : List (String × ℚ))
    (h : ∀ i ∈ idxs, ∃ f, frequencies[i]? = some f ∧
      ∃ v, get_pump_flow (i + 1) f H deg = .ok v) :
    ∀ acc, ∃ r, sum_pump_flows idxs frequencies H deg acc = .ok r := by
  induction idxs with
  | nil => exact fun acc => ⟨acc, rfl⟩
  | cons i rest ih =>
    intro acc
    obtain ⟨f, hf, v, hv⟩ := h i (List.mem_cons_self i rest)
    obtain ⟨r, hr⟩ := ih (fun j hj => h j (List.mem_cons_of_mem i hj)) (acc + v)
    exact ⟨r, by simp only [sum_pump_flows, hf, ok_bind, hv, hr]⟩

/-- The post-solve loop returns normally under the same conditions. -/
theorem post_totals_aux_ok (idxs : List ℕ) (frequencies : List ℚ) (H : ℚ)
    (deg : List (String × ℚ))
    (h : ∀ i ∈ idxs, ∃ f, frequencies[i]? = some f ∧
      ∃ v, get_pump_flow (i + 1) f H deg = .ok v) :
    ∀ ap aq, ∃ p q, post_totals_aux idxs frequencies H deg ap aq = .ok (p, q) := by
  induction idxs with
  | nil => exact fun ap aq => ⟨ap, aq, rfl⟩
  | cons i rest ih =>
    intro ap aq
    obtain ⟨f, hf, v, hv⟩ := h i (List.mem_cons_self i rest)
    obtain ⟨p, q, hr⟩ := ih (fun j hj => h j (List.mem_cons_of_mem i hj))
      (ap + get_pump_power (i + 1) f v H) (aq + v)
    exact ⟨p, q, by simp only [post_totals_aux, hf, ok_bind, hv, hr]⟩

/-- The equation function returns normally exactly when the supply loop
does, and its value is supply minus demand. -/
theorem equations_to_solve_ok (frequencies : List ℚ) (static_head : ℚ)
    (deg : List (String × ℚ)) (H q : ℚ)
    (h : total_pump_flow frequencies H deg = .ok q) :
    equations_to_solve frequencies static_head deg H =
      .ok ((q : ℝ) - system_flow (H : ℝ) (static_head : ℝ)) := by
  simp only [equations_to_solve, h, ok_bind]

/-- When the seed evaluation of the equation function returns normally and
the solver hands back a head, `simulate_hour` runs the post-solve loop and
the run counts as successful. -/
theorem simulate_hour_success_path (H_op : ℚ) (frequencies : List ℚ)
    (static_head : ℚ) (deg : List (String × ℚ)) (r : ℝ)
    (hseed : equations_to_solve frequencies static_head deg (static_head + 5) =
      .ok r) :
    simulate_hour (some H_op) frequencies static_head deg =
      post_totals frequencies H_op deg ∧
    simulate_failed (some H_op) frequencies static_head deg = false := by
  exact ⟨by simp only [simulate_hour, hseed],
    by simp only [simulate_failed, hseed, Option.isNone_some]⟩

/-- Frequencies that read as zero contribute nothing to the supply loop. -/
theorem sum_pump_flows_zero (idxs : List ℕ) (frequencies : List ℚ) (H : ℚ)
    (deg : List (String × ℚ)) (h : ∀ i ∈ idxs, frequencies[i]? = some 0) :
    ∀ acc, sum_pump_flows idxs frequencies H deg acc = .ok acc := by
  induction idxs with
  | nil => exact fun acc => rfl
  | cons i rest ih =>
    intro acc
    have hz := get_pump_flow_off (i + 1) 0 H deg le_rfl
    have := ih (fun j hj => h j (List.mem_cons_of_mem i hj)) acc
    simp only [sum_pump_flows, h i (List.mem_cons_self i rest), ok_bind, hz,
      add_zero, this]

/-- Frequencies that read as zero contribute nothing to the post-solve
totals either: the pump is off, so both its flow and its power are zero. -/
theorem post_totals_aux_zero (idxs : List ℕ) (frequencies : List ℚ) (H : ℚ)
    (deg : List (String × ℚ)) (h : ∀ i ∈ idxs, frequencies[i]? = some 0) :
    ∀ ap aq, post_totals_aux idxs frequencies H deg ap aq = .ok (ap, aq) := by
  induction idxs with
  | nil => exact fun ap aq => rfl
  | cons i rest ih =>
    intro ap aq
    have hz := get_pump_flow_off (i + 1) 0 H deg le_rfl
    have hp : get_pump_power (i + 1) 0 0 H = 0 := by simp [get_pump_power]
    have := ih (fun j hj => h j (List.mem_cons_of_mem i hj)) ap aq
    simp only [post_totals_aux, h i (List.mem_cons_self i rest), ok_bind, hz,
      hp, add_zero, this]

/-! The claims. -/

/-- Claim C1: whenever the solver call fails (the `try` block raises, either
because `fsolve` itself fails or because the equation function raises at
its evaluation points), `simulate_hour` returns the degenerate zero result
— total power 0, total flow 0, the failure branch taken — and propagates no
exception to the caller. -/
theorem C1_solver_failure_returns_zero (solverOut : Option ℚ)
    (frequencies : List ℚ) (static_head : ℚ) (deg : List (String × ℚ))
    (hfail : simulate_failed solverOut frequencies static_head deg = true) :
    simulate_hour solverOut frequencies static_head deg = .ok (0, 0) := by
  cases heq : equations_to_solve frequencies static_head deg (static_head + 5) with
  | error e => simp only [simulate_hour, heq]
  | ok r =>
    have hnone : solverOut = none := by
      have h := hfail
      simp only [simulate_failed, heq] at h
      exact Option.isNone_iff_eq_none.mp h
    subst hnone
    simp only [simulate_hour, heq]

/-- Witness for C1: a concrete run whose solver call fails returns the zero
result without an exception. -/
theorem C1_witness : simulate_failed none [0, 0, 0, 0] 10 [] = true ∧
    simulate_hour none [0, 0, 0, 0] 10 [] = .ok (0, 0) := by
  have hz : ∀ i ∈ [0, 1, 2, 3], (([0, 0, 0, 0] : List ℚ))[i]? = some 0 := by
    decide
  have ht : total_pump_flow [0, 0, 0, 0] ((10 : ℚ) + 5) [] = .ok 0 :=
    sum_pump_flows_zero _ _ _ _ hz 0
  have heq := equations_to_solve_ok [0, 0, 0, 0] 10 [] _ 0 ht
  have hfail : simulate_failed none [0, 0, 0, 0] 10 [] = true := by
    simp only [simulate_failed, heq, Option.isNone_none]
  exact ⟨hfail, C1_solver_failure_returns_zero none [0, 0, 0, 0] 10 [] hfail⟩

/-- Claim C7: with every pump frequency equal to zero (and at least the
four read entries present), a returning solver gives total flow 0 and
total power 0 through the successful branch — a valid degenerate success,
for every static head and every degradation dictionary. -/
theorem C7_all_frequencies_zero (frequencies : List ℚ) (static_head : ℚ)
    (deg : List (String × ℚ)) (H_op : ℚ)
    (hlen : 4 ≤ frequencies.length) (hz : ∀ x ∈ frequencies, x = 0) :
    simulate_hour (some H_op) frequencies static_head deg = .ok (0, 0) ∧
    simulate_failed (some H_op) frequencies static_head deg = false := by
  have hidx : ∀ i ∈ [0, 1, 2, 3], frequencies[i]? = some 0 := by
    intro i hi
    have h4 : i < 4 := by fin_cases hi <;> norm_num
    have hlt : i < frequencies.length := lt_of_lt_of_le h4 hlen
    rw [List.getElem?_eq_getElem hlt]
    exact congrArg some (hz _ (frequencies.getElem_mem hlt))
  have ht : total_pump_flow frequencies (static_head + 5) deg = .ok 0 :=
    sum_pump_flows_zero _ _ _ _ hidx 0
  have heq := equations_to_solve_ok frequencies static_head deg _ 0 ht
  obtain ⟨hsim, hfail⟩ :=
    simulate_hour_success_path H_op frequencies static_head deg _ heq
  refine ⟨?_, hfail⟩
  rw [hsim, post_totals, post_totals_aux_zero [0, 1, 2, 3] frequencies H_op deg hidx 0 0]

/-- Witness for C7: the all-off schedule on a concrete static head and an
arbitrary returning solver head. -/
theorem C7_witness : simulate_hour (some 30) [0, 0, 0, 0] 10 [] = .ok (0, 0) ∧
    simulate_failed (some 30) [0, 0, 0, 0] 10 [] = false :=
  C7_all_frequencies_zero [0, 0, 0, 0] 10 [] 30 (by decide) (by decide)

/-- The supply loop reads the frequency vector only at its index list:
on indices below 4 the vector may be truncated to its first four entries
without changing anything. -/
theorem sum_pump_flows_take (idxs : List ℕ) (frequencies : List ℚ)
    (hbound : ∀ i ∈ idxs, i < 4) :
    ∀ H deg acc, sum_pump_flows idxs (frequencies.take 4) H deg acc =
      sum_pump_flows idxs frequencies H deg acc := by
  induction idxs with
  | nil => exact fun H deg acc => rfl
  | cons i rest ih =>
    intro H deg acc
    have hi : (frequencies.take 4)[i]? = frequencies[i]? := by
      rw [List.getElem?_take]
      exact if_pos (hbound i (List.mem_cons_self i rest))
    simp only [sum_pump_flows, hi]
    cases hf : frequencies[i]? with
    | none => rfl
    | some f =>
      simp only [ok_bind]
      cases hq : get_pump_flow (i + 1) f H deg with
      | error e => rfl
      | ok q =>
        simp only [ok_bind,
          ih (fun j hj => hbound j (List.mem_cons_of_mem i hj))]

/-- The post-solve loop likewise reads only the first four entries. -/
theorem post_totals_aux_take (idxs : List ℕ) (frequencies : List ℚ)
    (hbound : ∀ i ∈ idxs, i < 4) :
    ∀ H deg ap aq, post_totals_aux idxs (frequencies.take 4) H deg ap aq =
      post_totals_aux idxs frequencies H deg ap aq := by
  induction idxs with
  | nil => exact fun H deg ap aq => rfl
  | cons i rest ih =>
    intro H deg ap aq
    have hi : (frequencies.take 4)[i]? = frequencies[i]? := by
      rw [List.getElem?_take]
      exact if_pos (hbound i (List.mem_cons_self i rest))
    simp only [post_totals_aux, hi]
    cases hf : frequencies[i]? with
    | none => rfl
    | some f =>
      simp only [ok_bind]
      cases hq : get_pump_flow (i + 1) f H deg with
      | error e => rfl
      | ok q =>
        simp only [ok_bind,
          ih (fun j hj => hbound j (List.mem_cons_of_mem i hj))]

/-- Claim C9: the simulation is deterministic and side-effect free — two
calls on identical solver outcome, frequency vector, static head and
degradation factors return identical results (the embedding is a pure
function of these explicit inputs and the constant configuration tables,
which no call mutates). -/
theorem C9_simulate_deterministic (solverOut solverOut' : Option ℚ)
    (frequencies frequencies' : List ℚ) (static_head static_head' : ℚ)
    (deg deg' : List (String × ℚ))
    (h1 : solverOut = solverOut') (h2 : frequencies = frequencies')
    (h3 : static_head = static_head') (h4 : deg = deg') :
    simulate_hour solverOut frequencies static_head deg =
      simulate_hour solverOut' frequencies' static_head' deg' ∧
    simulate_failed solverOut frequencies static_head deg =
      simulate_failed solverOut' frequencies' static_head' deg' := by
  subst h1; subst h2; subst h3; subst h4
  exact ⟨rfl, rfl⟩

/-- Witness for C9: two textually separate calls on the same concrete
input coincide. -/
theorem C9_witness :
    simulate_hour (some 30) [0, 0, 0, 0] 10 [] =
      simulate_hour (some 30) [0, 0, 0, 0] 10 [] ∧
    simulate_failed (some 30) [0, 0, 0, 0] 10 [] =
      simulate_failed (some 30) [0, 0, 0, 0] 10 [] :=
  C9_simulate_deterministic (some 30) (some 30) [0, 0, 0, 0] [0, 0, 0, 0]
    10 10 [] [] rfl rfl rfl rfl

/-- Claim C10: `simulate_hour` reads only the first four frequency
entries: a vector of length at least 4 is accepted (all four reads
succeed) and the whole simulation coincides with the one on the vector
truncated to its first four entries. -/
theorem C10_extra_entries_ignored (solverOut : Option ℚ)
    (frequencies : List ℚ) (static_head : ℚ) (deg : List (String × ℚ))
    (hlen : 4 ≤ frequencies.length) :
    (∀ i ∈ [0, 1, 2, 3], ∃ f, frequencies[i]? = some f) ∧
    simulate_hour solverOut frequencies static_head deg =
      simulate_hour solverOut (frequencies.take 4) static_head deg ∧
    simulate_failed solverOut frequencies static_head deg =
      simulate_failed solverOut (frequencies.take 4) static_head deg := by
  have hbound : ∀ i ∈ [0, 1, 2, 3], i < 4 := by decide
  have heqn : equations_to_solve (frequencies.take 4) static_head deg
      (static_head + 5) =
      equations_to_solve frequencies static_head deg (static_head + 5) := by
    simp only [equations_to_solve, total_pump_flow,
      sum_pump_flows_take [0, 1, 2, 3] frequencies hbound]
  refine ⟨?_, ?_, ?_⟩
  · intro i hi
    have hlt : i < frequencies.length :=
      lt_of_lt_of_le (hbound i hi) hlen
    exact ⟨frequencies[i], List.getElem?_eq_getElem hlt⟩
  · simp only [simulate_hour, heqn, post_totals,
      post_totals_aux_take [0, 1, 2, 3] frequencies hbound]
  · simp only [simulate_failed, heqn]

/-- Witness for C10: a five-entry vector behaves exactly like its first
four entries. -/
theorem C10_witness :
    (∀ i ∈ [0, 1, 2, 3], ∃ f, ([0, 0, 0, 0, 9] : List ℚ)[i]? = some f) ∧
    simulate_hour (some 30) [0, 0, 0, 0, 9] 10 [] =
      simulate_hour (some 30) (([0, 0, 0, 0, 9] : List ℚ).take 4) 10 [] ∧
    simulate_failed (some 30) [0, 0, 0, 0, 9] 10 [] =
      simulate_failed (some 30) (([0, 0, 0, 0, 9] : List ℚ).take 4) 10 [] :=
  C10_extra_entries_ignored (some 30) [0, 0, 0, 0, 9] 10 [] (by norm_num)

/-- Claim C3: `get_pump_flow` rescales the degraded base curve by the
affinity laws — with ratio `r = frequency / rated`, every degraded flow
sample is multiplied by `r` and every degraded head sample by `r²`; in
particular doubling the frequency doubles every flow sample and quadruples
every head sample of the curve used for interpolation, at corresponding
positions. -/
theorem C3_affinity_scaling (c : PumpCurve) (d_H d_Q frequency : ℚ) :
    (∀ i : ℕ, (scaled_flows c d_Q frequency)[i]? =
      (c.flow[i]?).map (fun q => q * d_Q * (frequency / c.freq))) ∧
    (∀ i : ℕ, (scaled_heads c d_H frequency)[i]? =
      (c.head[i]?).map (fun h => h * d_H * (frequency / c.freq) ^ 2)) ∧
    scaled_flows c d_Q (2 * frequency) =
      (scaled_flows c d_Q frequency).map (· * 2) ∧
    scaled_heads c d_H (2 * frequency) =
      (scaled_heads c d_H frequency).map (· * 4) := by
  refine ⟨?_, ?_, ?_, ?_⟩
  · intro i
    simp only [scaled_flows, List.getElem?_map, Option.map_map]
    cases c.flow[i]? with
    | none => rfl
    | some a => simp [Function.comp, mul_assoc]
  · intro i
    simp only [scaled_heads, List.getElem?_map, Option.map_map]
    cases c.head[i]? with
    | none => rfl
    | some a => simp [Function.comp, mul_assoc]
  · simp only [scaled_flows, List.map_map]
    refine List.map_congr_left ?_
    intro a _
    simp only [Function.comp_apply]
    ring
  · simp only [scaled_heads, List.map_map]
    refine List.map_congr_left ?_
    intro a _
    simp only [Function.comp_apply]
    ring

/-- Claim C4: the demand relation inside the equilibrium equation is
`sqrt((H - static_head)/k)` at or above the static head and `0` below it;
`get_system_head` computes `static_head + k·q²`; and on their natural
domains the two are mutually inverse. -/
theorem C4_demand_head_inverse :
    (∀ H s : ℝ, (s ≤ H →
        system_flow H s = Real.sqrt ((H - s) / (SYSTEM_K_VALUE : ℝ))) ∧
      (H < s → system_flow H s = 0)) ∧
    (∀ q s : ℝ, get_system_head q s = s + (SYSTEM_K_VALUE : ℝ) * q ^ 2) ∧
    (∀ q s : ℝ, 0 ≤ q → system_flow (get_system_head q s) s = q) ∧
    (∀ H s : ℝ, s ≤ H → get_system_head (system_flow H s) s = H) := by
  have hK : (0 : ℝ) < (SYSTEM_K_VALUE : ℝ) := by
    norm_num [SYSTEM_K_VALUE]
  refine ⟨?_, fun q s => rfl, ?_, ?_⟩
  · intro H s
    exact ⟨fun hs => if_neg (not_lt.mpr hs), fun hs => if_pos hs⟩
  · intro q s hq
    have hnn : (0 : ℝ) ≤ (SYSTEM_K_VALUE : ℝ) * q ^ 2 :=
      mul_nonneg hK.le (sq_nonneg q)
    rw [get_system_head, system_flow, if_neg (by linarith)]
    have harg : (s + (SYSTEM_K_VALUE : ℝ) * q ^ 2 - s) / (SYSTEM_K_VALUE : ℝ) =
        q ^ 2 := by
      field_simp
    rw [harg, Real.sqrt_sq hq]
  · intro H s hs
    have harg : (0 : ℝ) ≤ (H - s) / (SYSTEM_K_VALUE : ℝ) :=
      div_nonneg (by linarith) hK.le
    rw [system_flow, if_neg (not_lt.mpr hs), get_system_head,
      Real.sq_sqrt harg]
    field_simp

/-- Witness for C4: the round trip at the concrete flow 2 m³/s and static
head 1 m. -/
theorem C4_witness : system_flow (get_system_head 2 1) 1 = 2 :=
  C4_demand_head_inverse.2.2.1 2 1 (by norm_num)

/-- Claim C5: `get_pump_power` is zero whenever the flow or the frequency
is zero, and for positive flow and frequency it is the hydraulic power
`ρ·g·Q·H` (ρ = 1000 kg/m³, g = 9.81 m/s²) converted to kW and divided by
the overall efficiency constant 0.75. -/
theorem C5_pump_power (pump_id : ℕ) (frequency flow head : ℚ) :
    ((flow = 0 ∨ frequency = 0) →
      get_pump_power pump_id frequency flow head = 0) ∧
    (0 < flow → 0 < frequency →
      get_pump_power pump_id frequency flow head =
        1000 * (981/100) * flow * head / 1000 / (3/4)) := by
  constructor
  · rintro (rfl | rfl) <;> simp [get_pump_power]
  · intro hq hf
    rw [get_pump_power, if_neg (by push_neg; exact ⟨hq, hf⟩), if_pos hq]
    ring

/-- Witness for C5: 1 m³/s against 2 m of head at 60 Hz. -/
theorem C5_witness : 0 < (1 : ℚ) ∧ 0 < (60 : ℚ) ∧
    get_pump_power 1 60 1 2 = 1000 * (981/100) * 1 * 2 / 1000 / (3/4) :=
  ⟨by norm_num, by norm_num,
    (C5_pump_power 1 60 1 2).2 (by norm_num) (by norm_num)⟩

/-- The first and last entries of the degraded, affinity-rescaled head
curve in terms of the base curve's first and last head samples. -/
theorem scaled_bounds (c : PumpCurve) (d_H f h0 hl : ℚ)
    (hh0 : c.head.head? = some h0) (hhl : c.head.getLast? = some hl) :
    (scaled_heads c d_H f).head? = some (h0 * d_H * (f / c.freq) ^ 2) ∧
    (scaled_heads c d_H f).getLast? = some (hl * d_H * (f / c.freq) ^ 2) := by
  constructor
  · simp only [scaled_heads, List.head?_map, hh0, Option.map_some']
  · simp only [scaled_heads, List.getLast?_map, hhl, Option.map_some']

/-- On each of the four configured base curves, with a positive head
degradation factor and a positive frequency, the scaled shutoff head stays
strictly above the scaled maximum-flow head (the scaling factors preserve
the strict decrease of the stored head samples). -/
theorem table_minh_lt_maxh (pump_id : ℕ)
    (hpid : pump_id = 1 ∨ pump_id = 2 ∨ pump_id = 3 ∨ pump_id = 4)
    (curve : PumpCurve) (d_H frequency maxh minh : ℚ)
    (hdH : 0 < d_H) (hf : 0 < frequency)
    (hc : dictGet PUMP_BASE_CURVES ("pump" ++ toString pump_id) = some curve)
    (hmax : (scaled_heads curve d_H frequency).head? = some maxh)
    (hmin : (scaled_heads curve d_H frequency).getLast? = some minh) :
    minh < maxh := by
  have main : ∀ h0 hl : ℚ, curve.head.head? = some h0 →
      curve.head.getLast? = some hl → curve.freq = 60 → hl < h0 →
      minh < maxh := by
    intro h0 hl hh0 hhl hfr hlt
    obtain ⟨hm1, hm2⟩ := scaled_bounds curve d_H frequency h0 hl hh0 hhl
    rw [hm1] at hmax
    rw [hm2] at hmin
    have hr2 : 0 < (frequency / curve.freq) ^ 2 := by
      rw [hfr]
      exact pow_pos (div_pos hf (by norm_num)) 2
    have := mul_lt_mul_of_pos_right
      (mul_lt_mul_of_pos_right hlt hdH) hr2
    rw [Option.some.injEq] at hmax hmin
    rw [← hmax, ← hmin]
    exact this
  rcases hpid with rfl | rfl | rfl | rfl
  · simp only [pumpKey1] at hc
    simp [dictGet, PUMP_BASE_CURVES] at hc
    subst hc
    exact main (1996/100) (482/100) rfl rfl rfl (by norm_num)
  · simp only [pumpKey2] at hc
    simp [dictGet, PUMP_BASE_CURVES] at hc
    subst hc
    exact main 71 11 rfl rfl rfl (by norm_num)
  · simp only [pumpKey3] at hc
    simp [dictGet, PUMP_BASE_CURVES] at hc
    subst hc
    exact main 50 15 rfl rfl rfl (by norm_num)
  · simp only [pumpKey4] at hc
    simp [dictGet, PUMP_BASE_CURVES] at hc
    subst hc
    exact main 50 15 rfl rfl rfl (by norm_num)

/-- Claim C2: for every configured pump, a valid degradation pair and a
frequency above the cutoff, `get_pump_flow` obeys the clamping rule — flow
0 at or above the scaled shutoff head, the maximum scaled flow at or below
the scaled maximum-flow head, and otherwise the linear interpolation of
flow as a function of head over the scaled curve reordered to increasing
head. -/
theorem C2_flow_clamp_interpolate (pump_id : ℕ)
    (hpid : pump_id = 1 ∨ pump_id = 2 ∨ pump_id = 3 ∨ pump_id = 4)
    (frequency head d_H d_Q : ℚ) (deg : List (String × ℚ))
    (curve : PumpCurve) (maxh minh qlast : ℚ)
    (hf : 0 < frequency) (hdH : 0 < d_H) (hdH1 : d_H ≤ 1)
    (hdQ : 0 < d_Q) (hdQ1 : d_Q ≤ 1)
    (hH : dictGet deg ("pump" ++ toString pump_id ++ "_dH") = some d_H)
    (hQ : dictGet deg ("pump" ++ toString pump_id ++ "_dQ") = some d_Q)
    (hc : dictGet PUMP_BASE_CURVES ("pump" ++ toString pump_id) = some curve)
    (hmax : (scaled_heads curve d_H frequency).head? = some maxh)
    (hmin : (scaled_heads curve d_H frequency).getLast? = some minh)
    (hql : (scaled_flows curve d_Q frequency).getLast? = some qlast) :
    (maxh ≤ head → get_pump_flow pump_id frequency head deg = .ok 0) ∧
    (head ≤ minh → get_pump_flow pump_id frequency head deg = .ok qlast) ∧
    (minh < head → head < maxh →
      get_pump_flow pump_id frequency head deg =
        .ok (np_interp head (scaled_heads curve d_H frequency).reverse
          (scaled_flows curve d_Q frequency).reverse)) := by
  have heval := get_pump_flow_eval pump_id frequency head d_H d_Q deg curve
    maxh minh qlast hf hH hQ hc hmax hmin hql
  have hlt := table_minh_lt_maxh pump_id hpid curve d_H frequency maxh minh
    hdH hf hc hmax hmin
  refine ⟨fun h1 => ?_, fun h2 => ?_, fun h2 h3 => ?_⟩
  · rw [heval, if_pos h1]
  · rw [heval, if_neg (not_le.mpr (lt_of_le_of_lt h2 hlt)), if_pos h2]
  · rw [heval, if_neg (not_le.mpr h3), if_neg (not_le.mpr h2)]

/-- Witness for C2: pump 1 at 60 Hz with no degradation and a 15 m head
falls in the interpolation band of its scaled curve. -/
theorem C2_witness :
    get_pump_flow 1 60 15 [("pump1_dH", 1), ("pump1_dQ", 1)] =
      .ok (np_interp 15 (scaled_heads (to_si pump1_raw) 1 60).reverse
        (scaled_flows (to_si pump1_raw) 1 60).reverse) :=
  (C2_flow_clamp_interpolate 1 (Or.inl rfl) 60 15 1 1
    [("pump1_dH", 1), ("pump1_dQ", 1)] (to_si pump1_raw)
    (1996/100 * 1 * (60/60 : ℚ) ^ 2) (482/100 * 1 * (60/60 : ℚ) ^ 2)
    (126821/24/3600 * 1 * (60/60 : ℚ))
    (by norm_num) (by norm_num) (by norm_num) (by norm_num) (by norm_num)
    (by simp [dictGet, pumpKey1, pumpKey1dH])
    (by simp [dictGet, pumpKey1, pumpKey1dQ])
    (by simp [dictGet, PUMP_BASE_CURVES, pumpKey1])
    (by rfl) (by rfl) (by rfl)).2.2 (by norm_num) (by norm_num)

/-- A complete no-degradation factor dictionary for the four pumps. -/
def deg_ones : List (String × ℚ) :=
  [("pump1_dH", 1), ("pump1_dQ", 1), ("pump2_dH", 1), ("pump2_dQ", 1),
   ("pump3_dH", 1), ("pump3_dQ", 1), ("pump4_dH", 1), ("pump4_dQ", 1)]

/-- Claim C6 (evidence of the divergence): a missing degradation entry
raises `KeyError` inside `get_pump_flow`, yet `simulate_hour` run on an
empty degradation dictionary — and likewise on a one-entry frequency
vector — returns the zero result instead of failing fast: the broad
`except` around the solver call swallows the configuration error. -/
theorem C6_config_error_swallowed :
    get_pump_flow 1 60 15 [] = .error "KeyError" ∧
    simulate_hour (some 30) [60, 60, 60, 60] 10 [] = .ok (0, 0) ∧
    simulate_hour (some 30) [0] 10 [] = .ok (0, 0) := by
  have h1 : ∀ H : ℚ, get_pump_flow 1 60 H [] = .error "KeyError" := by
    intro H
    norm_num [get_pump_flow, dictGet]
  refine ⟨h1 15, ?_, ?_⟩
  · have hsum : sum_pump_flows [0, 1, 2, 3] [60, 60, 60, 60]
        ((10 : ℚ) + 5) [] 0 = .error "KeyError" := by
      have h0 : (([60, 60, 60, 60] : List ℚ))[0]? = some 60 := rfl
      simp only [sum_pump_flows, h0, ok_bind, zero_add, Nat.reduceAdd,
        h1 ((10 : ℚ) + 5), error_bind]
    have heqn : equations_to_solve [60, 60, 60, 60] 10 [] ((10 : ℚ) + 5) =
        .error "KeyError" := by
      simp only [equations_to_solve, total_pump_flow, hsum, error_bind]
    simp only [simulate_hour, heqn]
  · have hsum : sum_pump_flows [0, 1, 2, 3] [0] ((10 : ℚ) + 5) [] 0 =
        .error "IndexError" := by
      have h0 : (([0] : List ℚ))[0]? = some 0 := rfl
      have hx : (([0] : List ℚ))[1]? = none := rfl
      simp only [sum_pump_flows, h0, ok_bind, Nat.reduceAdd,
        get_pump_flow_off 1 0 ((10 : ℚ) + 5) [] le_rfl, add_zero, hx,
        error_bind]
    have heqn : equations_to_solve [0] 10 [] ((10 : ℚ) + 5) =
        .error "IndexError" := by
      simp only [equations_to_solve, total_pump_flow, hsum, error_bind]
    simp only [simulate_hour, heqn]

/-- The flow component of the post-solve totals is exactly the supply-loop
sum over the same indices at the same head. -/
theorem post_totals_flow_component (idxs : List ℕ) (frequencies : List ℚ)
    (H : ℚ) (deg : List (String × ℚ)) :
    ∀ ap aq p q, post_totals_aux idxs frequencies H deg ap aq = .ok (p, q) →
      sum_pump_flows idxs frequencies H deg aq = .ok q := by
  induction idxs with
  | nil =>
    intro ap aq p q h
    rw [post_totals_aux] at h
    rw [sum_pump_flows]
    cases h
    rfl
  | cons i rest ih =>
    intro ap aq p q h
    rw [post_totals_aux] at h
    rw [sum_pump_flows]
    cases hf : frequencies[i]? with
    | none =>
      simp only [hf, error_bind] at h
      exact Except.noConfusion h
    | some f =>
      simp only [hf, ok_bind] at h ⊢
      cases hq : get_pump_flow (i + 1) f H deg with
      | error e =>
        simp only [hq, error_bind] at h
        exact Except.noConfusion h
      | ok v =>
        simp only [hq, ok_bind] at h ⊢
        exact ih _ _ p q h

/-- Every configured pump delivers zero flow at a 1000 m head (the head is
above every scaled shutoff head at 60 Hz without degradation). -/
theorem pumps_cut_off_at_1000 :
    get_pump_flow 1 60 1000 deg_ones = .ok 0 ∧
    get_pump_flow 2 60 1000 deg_ones = .ok 0 ∧
    get_pump_flow 3 60 1000 deg_ones = .ok 0 ∧
    get_pump_flow 4 60 1000 deg_ones = .ok 0 := by
  refine ⟨?_, ?_, ?_, ?_⟩
  · rw [get_pump_flow_eval 1 60 1000 1 1 deg_ones (to_si pump1_raw)
      (1996/100 * 1 * ((60 : ℚ)/60) ^ 2) (482/100 * 1 * ((60 : ℚ)/60) ^ 2)
      (126821/24/3600 * 1 * ((60 : ℚ)/60))
      (by norm_num) (by simp [deg_ones, dictGet, pumpKey1, pumpKey1dH])
      (by simp [deg_ones, dictGet, pumpKey1, pumpKey1dQ])
      (by simp [dictGet, PUMP_BASE_CURVES, pumpKey1]) rfl rfl rfl]
    rw [if_pos (by norm_num)]
  · rw [get_pump_flow_eval 2 60 1000 1 1 deg_ones (to_si pump2_raw)
      (71 * 1 * ((60 : ℚ)/60) ^ 2) (11 * 1 * ((60 : ℚ)/60) ^ 2)
      (350/3600 * 1 * ((60 : ℚ)/60))
      (by norm_num) (by simp [deg_ones, dictGet, pumpKey2, pumpKey2dH])
      (by simp [deg_ones, dictGet, pumpKey2, pumpKey2dQ])
      (by simp [dictGet, PUMP_BASE_CURVES, pumpKey2]) rfl rfl rfl]
    rw [if_pos (by norm_num)]
  · rw [get_pump_flow_eval 3 60 1000 1 1 deg_ones (to_si pump3_raw)
      (50 * 1 * ((60 : ℚ)/60) ^ 2) (15 * 1 * ((60 : ℚ)/60) ^ 2)
      (125/3600 * 1 * ((60 : ℚ)/60))
      (by norm_num) (by simp [deg_ones, dictGet, pumpKey3, pumpKey3dH])
      (by simp [deg_ones, dictGet, pumpKey3, pumpKey3dQ])
      (by simp [dictGet, PUMP_BASE_CURVES, pumpKey3]) rfl rfl rfl]
    rw [if_pos (by norm_num)]
  · rw [get_pump_flow_eval 4 60 1000 1 1 deg_ones (to_si pump4_raw)
      (50 * 1 * ((60 : ℚ)/60) ^ 2) (15 * 1 * ((60 : ℚ)/60) ^ 2)
      (125/3600 * 1 * ((60 : ℚ)/60))
      (by norm_num) (by simp [deg_ones, dictGet, pumpKey4, pumpKey4dH])
      (by simp [deg_ones, dictGet, pumpKey4, pumpKey4dQ])
      (by simp [dictGet, PUMP_BASE_CURVES, pumpKey4]) rfl rfl rfl]
    rw [if_pos (by norm_num)]

/-- At 60 Hz on all four pumps with no degradation, the equation function
evaluates without an exception at every head. -/
theorem seed_eval_ok_60 (H : ℚ) :
    ∃ r, equations_to_solve [60, 60, 60, 60] 10 deg_ones H = .ok r := by
  have hloop : ∀ i ∈ [0, 1, 2, 3], ∃ f, (([60, 60, 60, 60] : List ℚ))[i]? =
      some f ∧ ∃ v, get_pump_flow (i + 1) f H deg_ones = .ok v := by
    intro i hi
    refine ⟨60, by fin_cases hi <;> rfl, ?_⟩
    have hpid : i + 1 = 1 ∨ i + 1 = 2 ∨ i + 1 = 3 ∨ i + 1 = 4 := by
      fin_cases hi <;> norm_num
    obtain ⟨curve, hc, hh, hfl⟩ := curve_lookup (i + 1) hpid
    have hdH : dictGet deg_ones ("pump" ++ toString (i + 1) ++ "_dH") =
        some 1 := by
      rcases hpid with h | h | h | h <;> rw [h] <;>
        simp [deg_ones, dictGet, pumpKey1, pumpKey1dH, pumpKey2, pumpKey2dH,
          pumpKey3, pumpKey3dH, pumpKey4, pumpKey4dH]
    have hdQ : dictGet deg_ones ("pump" ++ toString (i + 1) ++ "_dQ") =
        some 1 := by
      rcases hpid with h | h | h | h <;> rw [h] <;>
        simp [deg_ones, dictGet, pumpKey1, pumpKey1dQ, pumpKey2, pumpKey2dQ,
          pumpKey3, pumpKey3dQ, pumpKey4, pumpKey4dQ]
    exact get_pump_flow_ok (i + 1) 60 H 1 1 deg_ones curve (by norm_num)
      hdH hdQ hc hh hfl
  obtain ⟨q, hq⟩ := sum_pump_flows_ok [0, 1, 2, 3] [60, 60, 60, 60] H
    deg_ones hloop 0
  exact ⟨(q : ℝ) - system_flow (H : ℝ) ((10 : ℚ) : ℝ),
    equations_to_solve_ok [60, 60, 60, 60] 10 deg_ones H q hq⟩

/-- Counterexample to claim C8 as stated: a run the code reports as
successful (no failure branch taken) whose returned operating head has a
supply–demand residual of at least 1 m³/s — the code never checks the
solver's convergence, so success does not bound the residual. -/
theorem C8_counterexample :
    simulate_failed (some 1000) [60, 60, 60, 60] 10 deg_ones = false ∧
    simulate_hour (some 1000) [60, 60, 60, 60] 10 deg_ones = .ok (0, 0) ∧
    total_pump_flow [60, 60, 60, 60] 1000 deg_ones = .ok 0 ∧
    1 ≤ |((0 : ℚ) : ℝ) - system_flow ((1000 : ℚ) : ℝ) ((10 : ℚ) : ℝ)| := by
  obtain ⟨r, hseed⟩ := seed_eval_ok_60 ((10 : ℚ) + 5)
  obtain ⟨hsim, hfail⟩ :=
    simulate_hour_success_path 1000 [60, 60, 60, 60] 10 deg_ones r hseed
  obtain ⟨hp1, hp2, hp3, hp4⟩ := pumps_cut_off_at_1000
  have hzero : ∀ i ∈ [0, 1, 2, 3], ∃ f, (([60, 60, 60, 60] : List ℚ))[i]? =
      some f ∧ get_pump_flow (i + 1) f 1000 deg_ones = .ok 0 := by
    intro i hi
    fin_cases hi
    · exact ⟨60, rfl, hp1⟩
    · exact ⟨60, rfl, hp2⟩
    · exact ⟨60, rfl, hp3⟩
    · exact ⟨60, rfl, hp4⟩
  have hpost : ∀ idxs, (∀ i ∈ idxs, ∃ f, (([60, 60, 60, 60] : List ℚ))[i]? =
      some f ∧ get_pump_flow (i + 1) f 1000 deg_ones = .ok 0) →
      ∀ ap aq, post_totals_aux idxs [60, 60, 60, 60] 1000 deg_ones ap aq =
        .ok (ap, aq) := by
    intro idxs
    induction idxs with
    | nil => intro _ ap aq; rfl
    | cons i rest ih =>
      intro h ap aq
      obtain ⟨f, hf, hv⟩ := h i (List.mem_cons_self i rest)
      have hpw : get_pump_power (i + 1) f 0 1000 = 0 := by
        simp [get_pump_power]
      simp only [post_totals_aux, hf, ok_bind, hv, hpw, add_zero,
        ih (fun j hj => h j (List.mem_cons_of_mem i hj))]
  have hsum : ∀ idxs, (∀ i ∈ idxs, ∃ f, (([60, 60, 60, 60] : List ℚ))[i]? =
      some f ∧ get_pump_flow (i + 1) f 1000 deg_ones = .ok 0) →
      ∀ acc, sum_pump_flows idxs [60, 60, 60, 60] 1000 deg_ones acc =
        .ok acc := by
    intro idxs
    induction idxs with
    | nil => intro _ acc; rfl
    | cons i rest ih =>
      intro h acc
      obtain ⟨f, hf, hv⟩ := h i (List.mem_cons_self i rest)
      simp only [sum_pump_flows, hf, ok_bind, hv, add_zero,
        ih (fun j hj => h j (List.mem_cons_of_mem i hj))]
  refine ⟨hfail, ?_, hsum [0, 1, 2, 3] hzero 0, ?_⟩
  · rw [hsim, post_totals, hpost [0, 1, 2, 3] hzero 0 0]
  · have hval : system_flow ((1000 : ℚ) : ℝ) ((10 : ℚ) : ℝ) =
        Real.sqrt ((((1000 : ℚ) : ℝ) - ((10 : ℚ) : ℝ)) /
          ((SYSTEM_K_VALUE : ℚ) : ℝ)) := by
      rw [system_flow, if_neg (by push_cast; norm_num)]
    have hge : (1 : ℝ) ≤ Real.sqrt ((((1000 : ℚ) : ℝ) - ((10 : ℚ) : ℝ)) /
        ((SYSTEM_K_VALUE : ℚ) : ℝ)) := by
      rw [show ((1 : ℝ)) = Real.sqrt 1 from (Real.sqrt_one).symm]
      apply Real.sqrt_le_sqrt
      rw [SYSTEM_K_VALUE]
      push_cast
      norm_num
    rw [hval]
    rw [abs_sub_comm]
    push_cast
    rw [sub_zero]
    rw [abs_of_nonneg (Real.sqrt_nonneg _)] at *
    exact hge

/-- Claim C8 as amended: on a successful simulation the reported total
flow is exactly the pump supply evaluated at the solver's head `H*`;
consequently the equilibrium invariant `|supply(H*) − demand(H*)| < ε`
holds precisely when the solver's returned head satisfies that residual
bound — which the code itself never checks. -/
theorem C8_amended_equilibrium (solverOut : Option ℚ) (frequencies : List ℚ)
    (static_head H_op p q : ℚ) (deg : List (String × ℚ))
    (hok : solverOut = some H_op)
    (hfail : simulate_failed solverOut frequencies static_head deg = false)
    (hsim : simulate_hour solverOut frequencies static_head deg = .ok (p, q)) :
    total_pump_flow frequencies H_op deg = .ok q ∧
    ∀ ε : ℝ, |(q : ℝ) - system_flow (H_op : ℝ) (static_head : ℝ)| < ε →
      ∃ supply : ℚ, total_pump_flow frequencies H_op deg = .ok supply ∧
        |(supply : ℝ) - system_flow (H_op : ℝ) (static_head : ℝ)| < ε := by
  subst hok
  cases heq : equations_to_solve frequencies static_head deg
      (static_head + 5) with
  | error e =>
    simp only [simulate_failed, heq] at hfail
    exact Bool.noConfusion hfail
  | ok r =>
    have hpath := simulate_hour_success_path H_op frequencies static_head
      deg r heq
    have hpost : post_totals frequencies H_op deg = .ok (p, q) := by
      rw [← hpath.1]
      exact hsim
    have hflow := post_totals_flow_component [0, 1, 2, 3] frequencies H_op
      deg 0 0 p q hpost
    exact ⟨hflow, fun ε hε => ⟨q, hflow, hε⟩⟩

/-- Witness for the amended C8: the all-off schedule at static head 10
with the solver returning head 10. -/
theorem C8_witness :
    total_pump_flow [0, 0, 0, 0] 10 [] = .ok 0 ∧
    ∀ ε : ℝ, |((0 : ℚ) : ℝ) - system_flow ((10 : ℚ) : ℝ) ((10 : ℚ) : ℝ)| < ε →
      ∃ supply : ℚ, total_pump_flow [0, 0, 0, 0] 10 [] = .ok supply ∧
        |(supply : ℝ) - system_flow ((10 : ℚ) : ℝ) ((10 : ℚ) : ℝ)| < ε := by
  have hidx : ∀ i ∈ [0, 1, 2, 3], (([0, 0, 0, 0] : List ℚ))[i]? = some 0 := by
    decide
  have ht : total_pump_flow [0, 0, 0, 0] ((10 : ℚ) + 5) [] = .ok 0 :=
    sum_pump_flows_zero _ _ _ _ hidx 0
  have heq := equations_to_solve_ok [0, 0, 0, 0] 10 [] _ 0 ht
  obtain ⟨hsim, hfail⟩ :=
    simulate_hour_success_path 10 [0, 0, 0, 0] 10 [] _ heq
  have hpost : post_totals [0, 0, 0, 0] 10 [] = .ok (0, 0) :=
    post_totals_aux_zero [0, 1, 2, 3] [0, 0, 0, 0] 10 [] hidx 0 0
  have hsim' : simulate_hour (some 10) [0, 0, 0, 0] 10 [] = .ok (0, 0) := by
    rw [hsim, hpost]
  exact C8_amended_equilibrium (some 10) [0, 0, 0, 0] 10 10 0 0 [] rfl
    hfail hsim'

end Water
